import Mathlib

/-!
Verification development for the PaperMind frontend
(`src/frontend/client/src/lib/api.ts`,
`src/frontend/client/src/pages/systematic-review.tsx`, and the
systematic-review page variant and API-utility module shipped alongside them).

The TypeScript code is shallowly embedded: every `fetch` call is modelled by
an explicit `HttpOutcome` (network failure, or a response with a status code
and raw body), JSON parsing is an explicit `String → Option α` argument, and
React component state is modelled as an explicit record threaded through the
handlers, with `setX(v)` embedded as a functional record update (a state read
observes the latest write).  Impure reads of the clock (`new Date()`) are
made explicit parameters.
-/

set_option maxRecDepth 20000

namespace PaperMind

/-- Outcome of one browser `fetch` call, as observed by the client code:
either the promise rejects (network failure) or a response arrives carrying
an HTTP status code and a raw body text. -/
inductive HttpOutcome where
  | netError : HttpOutcome
  | response (status : Nat) (body : String) : HttpOutcome
deriving DecidableEq, Repr

/-- An error escaping one of the `api` wrappers:
`thrown msg` is `throw new Error(msg)`;
`networkFailure` is the rejection of the `fetch` promise itself;
`jsonSyntaxError` is the rejection of `response.json()`. -/
inductive JsError where
  | thrown (msg : String) : JsError
  | networkFailure : JsError
  | jsonSyntaxError : JsError
deriving DecidableEq, Repr

/-- `Response.ok` of the Fetch API: status in the inclusive range 200–299. -/
def responseOk (status : Nat) : Bool := 200 ≤ status && status ≤ 299

/-- Result shape of `api.askQuestion`: `{ result: string }`. -/
structure AskAnswer where
  result : String
deriving DecidableEq, Repr

/-- `api.askQuestion` (api.ts lines 16–30): POST to `/research/ask`;
`if (!response.ok) throw new Error('Failed to get answer')`;
otherwise `return response.json()`.  `parse` is JSON.parse specialised to
the declared result shape; its failure surfaces as the native parse
rejection, not as the wrapper's own Error. -/
def askQuestion (parse : String → Option AskAnswer) (o : HttpOutcome) :
    Except JsError AskAnswer :=
  match o with
  | .netError => .error .networkFailure
  | .response status body =>
    if responseOk status then
      match parse body with
      | some v => .ok v
      | none => .error .jsonSyntaxError
    else
      .error (.thrown "Failed to get answer")

/-- Result shape of `api.generateReview`:
`{ review_id, status, output_file?, word_count?, preview? }`. -/
structure ReviewGenerationResponse where
  review_id : String
  status : String
  output_file : Option String
  word_count : Option Nat
  preview : Option String
deriving DecidableEq, Repr

/-- `api.generateReview` (api.ts lines 95–109): POST to
`/systematic-review/generate`; `if (!response.ok) throw new
Error('Failed to generate review')`; otherwise `return response.json()`. -/
def generateReview (parse : String → Option ReviewGenerationResponse)
    (o : HttpOutcome) : Except JsError ReviewGenerationResponse :=
  match o with
  | .netError => .error .networkFailure
  | .response status body =>
    if responseOk status then
      match parse body with
      | some v => .ok v
      | none => .error .jsonSyntaxError
    else
      .error (.thrown "Failed to generate review")

/-- One entry of `api.getGeneratedPodcasts`:
`{ filename, created_at, size }`. -/
structure PodcastEntry where
  filename : String
  created_at : String
  size : Nat
deriving DecidableEq, Repr

/-- Result shape of `api.getGeneratedPodcasts`: `{ podcasts: [...] }`. -/
structure PodcastList where
  podcasts : List PodcastEntry
deriving DecidableEq, Repr

/-- `api.getGeneratedPodcasts` (api.ts lines 57–75).  The whole body is a
`try`/`catch` whose `catch` returns `{ podcasts: [] }`:
a network failure is caught; a 404 returns `{ podcasts: [] }` early; any
other non-2xx status throws `new Error(...)` which the `catch` swallows
into `{ podcasts: [] }`.  On a 2xx response the code runs
`return response.json()` WITHOUT awaiting inside the `try`, so the async
function adopts that promise after the `try`/`catch` has been exited: a
JSON parse rejection bypasses the `catch` and escapes to the caller. -/
def getGeneratedPodcasts (parse : String → Option PodcastList)
    (o : HttpOutcome) : Except JsError PodcastList :=
  match o with
  | .netError => .ok { podcasts := [] }
  | .response status body =>
    if responseOk status then
      match parse body with
      | some v => .ok v
      | none => .error .jsonSyntaxError
    else
      if status == 404 then .ok { podcasts := [] }
      else .ok { podcasts := [] }

/-- The `/health` response as read by `checkBackendConnectivity`: only the
`status` field is consulted (`mainHealth.status === 'healthy'`). -/
structure ApiHealth where
  status : String
deriving DecidableEq, Repr

/-- The `/cag/health` response as read by `checkBackendConnectivity`: only
the `status` field is consulted (`cagHealth.status === 'healthy'`). -/
structure CagHealth where
  status : String
deriving DecidableEq, Repr

/-- The `/insights/status` response as read by `checkBackendConnectivity`:
only the `availability` field is consulted. -/
structure InsightsStatus where
  availability : Bool
deriving DecidableEq, Repr

/-- The three sub-service probe outcomes observed by one run of
`checkBackendConnectivity`; `.error ()` is a rejected probe promise. -/
structure ProbeOutcomes where
  main : Except Unit ApiHealth
  cag : Except Unit CagHealth
  insights : Except Unit InsightsStatus
deriving Repr

/-- The `services` record built by `checkBackendConnectivity`. -/
structure ServiceFlags where
  main : Bool
  cag : Bool
  insights : Bool
deriving DecidableEq, Repr

/-- The aggregate result of `checkBackendConnectivity`. -/
structure ConnectivityResult where
  isHealthy : Bool
  services : ServiceFlags
deriving DecidableEq, Repr

/-- `checkBackendConnectivity` (API-utility module, lines 62–105).  Each of
the three probes runs in its own `try`/`catch`; a rejection leaves the
corresponding `services` flag at its initial `false`.  The function is
total in this embedding exactly because every probe failure is consumed
locally: no outcome makes the aggregator itself fail.  Finally
`results.isHealthy = Object.values(results.services).some(Boolean)`, the
disjunction of the three flags in insertion order main, cag, insights. -/
def checkBackendConnectivity (o : ProbeOutcomes) : ConnectivityResult :=
  let mainOk : Bool :=
    match o.main with
    | .ok h => h.status == "healthy"
    | .error _ => false
  let cagOk : Bool :=
    match o.cag with
    | .ok h => h.status == "healthy"
    | .error _ => false
  let insightsOk : Bool :=
    match o.insights with
    | .ok s => s.availability
    | .error _ => false
  { isHealthy := mainOk || cagOk || insightsOk
    services := { main := mainOk, cag := cagOk, insights := insightsOk } }

/-- State of the `EventSource` driven by `api.createResearchStream`: the
messages delivered to the `onMessage` callback so far, and whether the
handler has closed the stream. -/
structure StreamState (α : Type) where
  delivered : List α
  closed : Bool
deriving DecidableEq, Repr

/-- The `onmessage` handler installed by `api.createResearchStream`
(api.ts lines 284–291) applied to one event: `JSON.parse(event.data)` and a
call of `onMessage` on success; on a parse failure the `catch` only logs —
`onMessage` is not invoked and `eventSource.close()` is never called. -/
def onmessageStep (parse : String → Option α) (st : StreamState α)
    (eventData : String) : StreamState α :=
  match parse eventData with
  | some v => { st with delivered := st.delivered ++ [v] }
  | none => st

/-- A whole stream of server-sent events processed by the handler of
`api.createResearchStream`, starting from the freshly opened source. -/
def createResearchStreamRun (parse : String → Option α)
    (events : List String) : StreamState α :=
  events.foldl (onmessageStep parse) { delivered := [], closed := false }

/-- Result shape of `api.getReview` as consumed by the page:
`{ content, word_count? }`. -/
structure ReviewContentResponse where
  content : String
  word_count : Option Nat
deriving DecidableEq, Repr

/-- A toast shown via `useToast`; `destructive` is the
`variant: "destructive"` error styling. -/
structure Toast where
  title : String
  destructive : Bool
deriving DecidableEq, Repr

/-- The React state of `SystematicReviewPage` that the verified behaviour
touches.  `reviewAbstract` stands for the `review` object: the code builds
it with `sections.abstract` equal to the displayed content plus cosmetic
statistics (word count, a studies heuristic, clamped formulas and a
`Math.random()`-based quality score) that no claim under verification
consults, so the record is modelled by its abstract.  `progressUpdates` is
the history of values passed to `setGenerationProgress`, newest last.
Setter calls are embedded as record updates whose value is observed by all
later reads (state reads observe the latest write). -/
structure PageState where
  topic : String
  rawMarkdown : String
  isFullContentLoaded : Bool
  generationProgress : Nat
  isGenerating : Bool
  reviewId : Option String
  reviewAbstract : Option String
  toasts : List Toast
  progressUpdates : List Nat
deriving DecidableEq, Repr

/-- `setGenerationProgress(p)`, also recording `p` in the update history. -/
def setProgress (p : Nat) (st : PageState) : PageState :=
  { st with generationProgress := p
            progressUpdates := st.progressUpdates ++ [p] }

/-- JS `\s` on the ASCII range (space, tab, line feed, vertical tab, form
feed, carriage return); the page topics are ASCII strings. -/
def jsWs (c : Char) : Bool :=
  c == ' ' || c == '\t' || c == '\n' || c == '\x0b' || c == '\x0c' || c == '\r'

/-- `String.prototype.replace(/\s+/g, '_')`: every maximal run of
whitespace becomes one underscore.  The boolean argument records whether
the previous character was part of a whitespace run. -/
def replaceWsAux : Bool → List Char → List Char
  | _, [] => []
  | inRun, c :: cs =>
    if jsWs c then
      (if inRun then [] else ['_']) ++ replaceWsAux true cs
    else
      c :: replaceWsAux false cs

/-- `topic.replace(/\s+/g, '_')`. -/
def jsReplaceWsRuns (s : String) : String := ⟨replaceWsAux false s.data⟩

/-- `String.prototype.toLowerCase()` on the ASCII range, character by
character. -/
def jsToLower (s : String) : String := ⟨s.data.map Char.toLower⟩

/-- The topic-based fallback identifier
`` `review_${topic.replace(/\s+/g, '_').toLowerCase()}` ``
(systematic-review.tsx line 157). -/
def topicBasedId (topic : String) : String :=
  "review_" ++ jsToLower (jsReplaceWsRuns topic)

/-- The backend behind `api.getReview`: `some r` when the fetch resolved
with a 2xx status and a parsable body, `none` when `api.getReview` threw
(network failure, non-2xx such as 404, or malformed JSON). -/
def ReviewBackend : Type := String → Option ReviewContentResponse

/-- Lines 150–160 of `fetchGeneratedReview`: try the original review id
first; if `api.getReview` throws, try once more with the topic-based id. -/
def resolveReviewFetch (backend : ReviewBackend) (rid topic : String) :
    Option ReviewContentResponse :=
  match backend rid with
  | some r => some r
  | none => backend (topicBasedId topic)

/-- The identifiers `fetchGeneratedReview` requests from `api.getReview`,
in order: the original id, then — only if that throws — the topic-based
fallback id. -/
def requestedReviewIds (backend : ReviewBackend) (rid topic : String) :
    List String :=
  match backend rid with
  | some _ => [rid]
  | none => [rid, topicBasedId topic]

/-- Result of one `fetchGeneratedReview` call: the page state after it,
whether the call re-threw (for the polling logic), and the review ids it
requested. -/
structure FetchResult where
  state : PageState
  threw : Bool
  requested : List String
deriving DecidableEq, Repr

/-- The `catch` block of `fetchGeneratedReview` (systematic-review.tsx
lines 207–266).  `fetchGeneratedReview` is a closure created during a
render, so the `rawMarkdown` it READS here is the value captured at that
render — the explicit `captured` argument — while its `setX` calls write
to the live state `st`.  If the captured content is longer than 500
characters it is kept and treated as final: the full-content flag is SET,
progress becomes 100, the review object is built from the captured
content and the function returns normally with a success toast.
Otherwise the error is surfaced (destructive toast, progress reset) and
re-thrown. -/
def fetchGeneratedReviewCatch (captured : String) (st : PageState) :
    PageState × Bool :=
  if captured ≠ "" ∧ captured.length > 500 then
    let st1 := setProgress 100 { st with isFullContentLoaded := true }
    let st2 := { st1 with isGenerating := false
                          reviewAbstract := some captured
                          toasts := st1.toasts ++ [⟨"Review ready!", false⟩] }
    (st2, false)
  else
    let st1 := setProgress 0 { st with isGenerating := false }
    ({ st1 with toasts := st1.toasts ++ [⟨"Error fetching review", true⟩] },
      true)

/-- The body of `fetchGeneratedReview` (systematic-review.tsx lines
147–267) with its closure reads explicit: `captured` is the `rawMarkdown`
value of the render that created the closure.  Sets progress to 80,
resolves the fetch (primary id, then topic-based fallback); on a response
with non-empty `content` the displayed markdown is replaced by it
UNCONDITIONALLY (`if (reviewData.content)` — no length comparison), the
full-content flag is set and progress reaches 100; an empty `content`
throws `No content received from review` into the same `catch` as a
failed fetch, and the catch reads `captured`. -/
def fetchGeneratedReviewWith (backend : ReviewBackend) (captured : String)
    (rid : String) (st0 : PageState) : FetchResult :=
  let st1 := setProgress 80 st0
  let requested := requestedReviewIds backend rid st0.topic
  match resolveReviewFetch backend rid st0.topic with
  | some r =>
    if r.content ≠ "" then
      let st2 := setProgress 100
        { st1 with rawMarkdown := r.content, isFullContentLoaded := true }
      let st3 := { st2 with reviewAbstract := some r.content
                            isGenerating := false
                            toasts := st2.toasts
                              ++ [⟨"Full content loaded!", false⟩] }
      { state := st3, threw := false, requested := requested }
    else
      let (st2, threw) := fetchGeneratedReviewCatch captured st1
      { state := st2, threw := threw, requested := requested }
  | none =>
    let (st2, threw) := fetchGeneratedReviewCatch captured st1
    { state := st2, threw := threw, requested := requested }

/-- `fetchGeneratedReview` as invoked in a flow where the render-captured
`rawMarkdown` agrees with the live state's value: the retry button (a
fresh closure from a re-render that already reflects the displayed
content), or polling started over an empty display, where no failing
fetch ever writes `rawMarkdown` and a successful one clears the interval.
The general closure semantics is `fetchGeneratedReviewWith`. -/
def fetchGeneratedReview (backend : ReviewBackend) (rid : String)
    (st : PageState) : FetchResult :=
  fetchGeneratedReviewWith backend st.rawMarkdown rid st

/-- `generateReviewMutation.onSuccess` (systematic-review.tsx lines
32–135).  Returns the state after the handler and whether the handler
fell into the polling branch (no completed preview).  In the preview
branch: a preview longer than 1000 characters is promoted to final
content on the spot; otherwise `fetchGeneratedReview` runs — the closure
instance from the render that produced this handler, so the `rawMarkdown`
its catch reads is `st0.rawMarkdown`, NOT the preview just written by
`setRawMarkdown(data.preview)` — and a throw from it is recovered by the
handler's own inner catch, which sets the full-content flag, progress 100
and stops generating. -/
def onSuccessGenerate (backend : ReviewBackend)
    (data : ReviewGenerationResponse) (st0 : PageState) :
    PageState × Bool :=
  let st1 := setProgress 30 { st0 with reviewId := some data.review_id }
  match data.preview with
  | some p =>
    if data.status == "completed" && p != "" then
      let st2 := setProgress 60
        { st1 with rawMarkdown := p, isFullContentLoaded := false }
      if p.length > 1000 then
        let st3 := setProgress 100 { st2 with isFullContentLoaded := true }
        let st4 := { st3 with isGenerating := false
                              reviewAbstract := some p
                              toasts := st3.toasts
                                ++ [⟨"Review completed!", false⟩] }
        (st4, false)
      else
        let fr := fetchGeneratedReviewWith backend st0.rawMarkdown
          data.review_id st2
        if fr.threw then
          let st3 := setProgress 100
            { fr.state with isFullContentLoaded := true }
          ({ st3 with isGenerating := false }, false)
        else
          (fr.state, false)
    else
      (st1, true)
  | none => (st1, true)

/-- The render guard of the `Load Full Content` retry control
(systematic-review.tsx lines 463–475): it is mounted only when a review
object exists AND the full-content flag is still false (plus a review id
and non-empty displayed markdown). -/
def loadFullContentVisible (st : PageState) : Bool :=
  st.reviewAbstract.isSome &&
    (!st.isFullContentLoaded && st.reviewId.isSome &&
      st.rawMarkdown ≠ "" && st.rawMarkdown.length > 0)

/-- The `Load Full Content` header-button handler of the page variant
(part_004 lines 810–878): one fetch with the topic-based id; the displayed
markdown is replaced only when the fetched content is non-empty AND
strictly longer than the current content, and is retained unchanged
otherwise (including on a failed fetch). -/
def loadFullContentHandler (backend : ReviewBackend) (st0 : PageState) :
    PageState :=
  let st1 := { st0 with isGenerating := true }
  match backend (topicBasedId st0.topic) with
  | some r =>
    if r.content ≠ "" ∧ r.content.length > st1.rawMarkdown.length then
      let st2 := { st1 with rawMarkdown := r.content
                            isFullContentLoaded := true
                            reviewAbstract :=
                              st1.reviewAbstract.map (fun _ => r.content) }
      { st2 with toasts := st2.toasts ++ [⟨"Full content loaded!", false⟩]
                 isGenerating := false }
    else
      { st1 with toasts := st1.toasts ++ [⟨"Content is current", false⟩]
                 isFullContentLoaded := true
                 isGenerating := false }
  | none =>
    { st1 with toasts := st1.toasts ++ [⟨"Could not load full content", true⟩]
               isGenerating := false }

/-- The `useState` defaults of `SystematicReviewPage`, which
`handleGenerate` also restores before a new run. -/
def initialPageState (topic : String) : PageState :=
  { topic := topic
    rawMarkdown := ""
    isFullContentLoaded := false
    generationProgress := 0
    isGenerating := false
    reviewId := none
    reviewAbstract := none
    toasts := []
    progressUpdates := [] }

/-- The mutation function body before the request: `setIsGenerating(true);
setGenerationProgress(10)`. -/
def mutateStart (st : PageState) : PageState :=
  setProgress 10 { st with isGenerating := true }

/-- A backend on which every `api.getReview` call throws. -/
def backendAllFail : ReviewBackend := fun _ => none

/-- The polling loop of the no-preview branch of `onSuccess`: the page
state, whether the `setInterval` handle is still installed, and how many
interval callbacks have run. -/
structure PollSystem where
  page : PageState
  intervalActive : Bool
  pollsFired : Nat
deriving DecidableEq, Repr

/-- `setInterval(..., 3000)`: the fixed polling period in milliseconds. -/
def pollIntervalMs : Nat := 3000

/-- `setTimeout(..., 120000)`: the polling budget in milliseconds. -/
def pollTimeoutMs : Nat := 120000

/-- Time in milliseconds after polling started at which the k-th interval
callback fires (k counted from 0): the interval fires first after one full
period, then every period. -/
def pollFireTime (k : Nat) : Nat := pollIntervalMs * (k + 1)

/-- One firing of the polling interval callback (systematic-review.tsx
lines 100–109): if the interval is still installed, bump progress by ten
capped at 90, run `fetchGeneratedReview`, and `clearInterval` when — and
only when — the awaited fetch returned without throwing; a throw is
swallowed (`console.log` only) and the interval stays installed.  The
polling branch starts with nothing displayed, no failing fetch writes
`rawMarkdown` and a successful one clears the interval, so the closure's
render-captured `rawMarkdown` agrees with the live value here and the
agreeing-capture form `fetchGeneratedReview` applies. -/
def pollTick (backend : ReviewBackend) (rid : String) (s : PollSystem) :
    PollSystem :=
  if s.intervalActive then
    let p1 := setProgress (min (s.page.generationProgress + 10) 90) s.page
    let fr := fetchGeneratedReview backend rid p1
    { page := fr.state
      intervalActive := fr.threw
      pollsFired := s.pollsFired + 1 }
  else s

/-- The timeout callback (systematic-review.tsx lines 112–123):
unconditionally `clearInterval`; then, if progress has not reached 100,
show the destructive `Generation timeout` toast, stop generating and reset
progress to 0. -/
def pollTimeoutFire (s : PollSystem) : PollSystem :=
  let s1 : PollSystem := { s with intervalActive := false }
  if s1.page.generationProgress < 100 then
    let pg := { s1.page with
      toasts := s1.page.toasts ++ [⟨"Generation timeout", true⟩]
      isGenerating := false }
    { s1 with page := setProgress 0 pg }
  else s1

/-- Entering the polling branch: a freshly installed interval handle. -/
def startPolling (st : PageState) : PollSystem :=
  { page := st, intervalActive := true, pollsFired := 0 }

/-- `n` successive firings of the polling interval callback. -/
def runPolls (backend : ReviewBackend) (rid : String) :
    Nat → PollSystem → PollSystem
  | 0, s => s
  | n + 1, s => runPolls backend rid n (pollTick backend rid s)

/-- A backend whose every lookup returns the one-character content `x`,
for concrete counterexamples. -/
def backendShort : ReviewBackend := fun _ => some ⟨"x", none⟩

/-- A page state displaying ten characters of content, for concrete
counterexamples. -/
def stTenChars : PageState :=
  { initialPageState "t" with rawMarkdown := "0123456789" }

/-- A 600-character preview, matching the degraded-completion scenario. -/
def preview600 : String := ⟨List.replicate 600 'a'⟩

/-- The generation response of the degraded-completion scenario: completed
with a 600-character preview under id `rev1`. -/
def dataPreview600 : ReviewGenerationResponse :=
  { review_id := "rev1", status := "completed", output_file := none
    word_count := none, preview := some preview600 }

/-- The page state in which the scenario's `onSuccess` runs: fresh page,
mutation started. -/
def stScenario : PageState :=
  mutateStart (initialPageState "Machine Learning in Healthcare")

/-- A backend that only answers the derived fallback id of the scenario
topic, for the C4 witness. -/
def backendFallbackOnly : ReviewBackend := fun id =>
  if id = "review_machine_learning_in_healthcare" then
    some ⟨"the complete systematic review text, longer than the preview",
          some 800⟩
  else none

/-- The page state at the start of the polling branch: no preview
displayed, progress at 30 (as set by `onSuccess` before branching). -/
def stPollStart : PageState :=
  { initialPageState "t" with generationProgress := 30 }

/-- A reference record extracted by `parseReferences` (page variant
part_004, lines 14–111). -/
structure Reference where
  id : String
  title : String
  authors : List String
  journal : String
  year : Nat
  doi : String
  url : String
  pmid : String
  arxivId : String
deriving DecidableEq, Repr

/-- Decimal digit, the regex class `\d` / `[0-9]`. -/
def isDigitCh (c : Char) : Bool := '0' ≤ c && c ≤ '9'

/-- Case-insensitive character comparison, as under a `/i` regex flag. -/
def ciEq (a b : Char) : Bool := a.toLower == b.toLower

/-- Strip a literal pattern case-insensitively from the head of the text,
returning the rest on success. -/
def stripCi (pat : List Char) (l : List Char) : Option (List Char) :=
  match pat, l with
  | [], l => some l
  | _ :: _, [] => none
  | p :: ps, c :: cs => if ciEq c p then stripCi ps cs else none

/-- `pat` is a (case-sensitive) literal at the head of `l`, as
`String.prototype.startsWith`. -/
def startsWithLit (pat : List Char) (l : List Char) : Bool :=
  match pat, l with
  | [], _ => true
  | _ :: _, [] => false
  | p :: ps, c :: cs => c == p && startsWithLit ps cs

/-- `String.prototype.trim()` on the ASCII range. -/
def jsTrim (l : List Char) : List Char :=
  ((l.dropWhile jsWs).reverse.dropWhile jsWs).reverse

/-- The lookahead `(?=\n#{1,3}|\n\n[A-Z]|$)` of the references-section
regex: end of input, a newline followed by a hash, or a blank line
followed by an uppercase letter. -/
def refSectionStop (l : List Char) : Bool :=
  match l with
  | [] => true
  | '\n' :: '#' :: _ => true
  | '\n' :: '\n' :: c :: _ => 'A' ≤ c && c ≤ 'Z'
  | _ => false

/-- The lazy group `([\s\S]*?)`: shortest text up to the first position
where the lookahead holds. -/
def refSectionCapture (l : List Char) : List Char :=
  match l with
  | [] => []
  | c :: cs => if refSectionStop (c :: cs) then [] else c :: refSectionCapture cs

/-- Index of the last newline in a list, if any. -/
def lastNewlinePos (l : List Char) : Option Nat :=
  match l with
  | [] => none
  | c :: cs =>
    match lastNewlinePos cs with
    | some k => some (k + 1)
    | none => if c = '\n' then some 0 else none

/-- After `#{1,3}\s*References?` has been consumed: the trailing `\s*\n`
— `\s*` greedy with backtracking consumes the whitespace run up to its
LAST newline — followed by the lazy capture. -/
def headingCaptureTail (l : List Char) : Option (List Char) :=
  let run := l.takeWhile jsWs
  let rest := l.drop run.length
  match lastNewlinePos run with
  | none => none
  | some k => some (refSectionCapture (run.drop (k + 1) ++ rest))

/-- After the leading hashes: `\s*References?` case-insensitively (the
optional `s` greedy, i.e. tried first), then the `\s*\n` and capture. -/
def headingTailMatch (l : List Char) : Option (List Char) :=
  let l1 := l.dropWhile jsWs
  match stripCi "reference".data l1 with
  | none => none
  | some l2 =>
    match l2 with
    | c :: cs =>
      if ciEq c 's' then
        match headingCaptureTail cs with
        | some r => some r
        | none => headingCaptureTail l2
      else headingCaptureTail l2
    | [] => headingCaptureTail l2

/-- One anchored attempt of the section regex
`#{1,3}\s*References?\s*\n([\s\S]*?)(?=\n#{1,3}|\n\n[A-Z]|$)`: the greedy
`#{1,3}` tries three, two, then one leading hash. -/
def refHeadingAt (l : List Char) : Option (List Char) :=
  match l with
  | '#' :: '#' :: '#' :: rest =>
    (headingTailMatch rest).orElse fun _ =>
      (headingTailMatch ('#' :: rest)).orElse fun _ =>
        headingTailMatch ('#' :: '#' :: rest)
  | '#' :: '#' :: rest =>
    (headingTailMatch rest).orElse fun _ => headingTailMatch ('#' :: rest)
  | '#' :: rest => headingTailMatch rest
  | _ => none

/-- Leftmost match of the references-section regex:
`content.match(/#{1,3}\s*References?\s*\n([\s\S]*?)(?=\n#{1,3}|\n\n[A-Z]|$)/i)`,
returning capture group 1. -/
def findRefSection (l : List Char) : Option (List Char) :=
  match l with
  | [] => refHeadingAt []
  | c :: cs =>
    match refHeadingAt (c :: cs) with
    | some cap => some cap
    | none => findRefSection cs

/-- `referencesText.split(/\n\n+/)`: splitting on each maximal run of two
or more newlines (the greedy `\n+` extends each separator to the whole
run).  `cur` accumulates the current chunk in reverse; `nl` counts
pending newlines not yet committed: a run of two or more ends the chunk,
a single one stays inside it. -/
def splitBlankAux (cur : List Char) (nl : Nat) :
    List Char → List (List Char)
  | [] =>
    if nl ≥ 2 then [cur.reverse, []]
    else [(List.replicate nl '\n' ++ cur).reverse]
  | c :: cs =>
    if c == '\n' then splitBlankAux cur (nl + 1) cs
    else if nl ≥ 2 then cur.reverse :: splitBlankAux [c] 0 cs
    else splitBlankAux (c :: (List.replicate nl '\n' ++ cur)) 0 cs

/-- `referencesText.split(/\n\n+/)`. -/
def splitBlank (l : List Char) : List (List Char) := splitBlankAux [] 0 l

/-- Check `\s+\((\d{4})\)\.` at the head of the text; returns the four
year digits. -/
def wsYearAt (l : List Char) : Option (List Char) :=
  let run := l.takeWhile jsWs
  if run.isEmpty then none
  else
    match l.drop run.length with
    | '(' :: d1 :: d2 :: d3 :: d4 :: ')' :: '.' :: _ =>
      if isDigitCh d1 && isDigitCh d2 && isDigitCh d3 && isDigitCh d4 then
        some [d1, d2, d3, d4]
      else none
    | _ => none

/-- `trimmedRef.match(/^([^.]+?)\s+\((\d{4})\)\./)`: the lazy group is the
shortest non-empty dot-free strict prefix whose remainder starts with
whitespace, a parenthesised four-digit year and a period; a dot ends the
search since every longer prefix would contain it.  Returns the group and
the year digits. -/
def authorYearAux (pre : List Char) : List Char → Option (List Char × List Char)
  | [] => none
  | c :: cs =>
    if c = '.' then none
    else
      match wsYearAt cs with
      | some ds => some (pre ++ [c], ds)
      | none => authorYearAux (pre ++ [c]) cs

/-- The author/year match of one reference entry. -/
def authorYearMatch (l : List Char) : Option (List Char × List Char) :=
  authorYearAux [] l

/-- `authorString.split(/[,&]/)`. -/
def splitAuthorsAux (cur : List Char) : List Char → List (List Char)
  | [] => [cur.reverse]
  | c :: cs =>
    if c = ',' || c = '&' then cur.reverse :: splitAuthorsAux [] cs
    else splitAuthorsAux (c :: cur) cs

/-- `authorString.split(/[,&]/).map(trim).filter(nonempty)`. -/
def splitAuthors (l : List Char) : List (List Char) :=
  ((splitAuthorsAux [] l).map jsTrim).filter (fun a => a.length > 0)

/-- `parseInt` of a digit string. -/
def digitsToNat (l : List Char) : Nat :=
  l.foldl (fun acc c => acc * 10 + (c.toNat - '0'.toNat)) 0

/-- Index of the first dot, if any. -/
def firstDotPos (l : List Char) : Option Nat :=
  match l with
  | [] => none
  | c :: cs =>
    if c = '.' then some 0 else (firstDotPos cs).map (· + 1)

/-- The tail `\s*([^.]+)\.` of the title regexes: the greedy `\s*`
backtracks so that the greedy non-empty dot-free group reaches the first
following dot.  With `d` the index of the first dot and `w` the length of
the whitespace run, the group spans from `min w (d-1)` to `d`. -/
def titleTailCapture (rest : List Char) : Option (List Char) :=
  match firstDotPos rest with
  | none => none
  | some d =>
    if d = 0 then none
    else
      let w := (rest.takeWhile jsWs).length
      let k := min w (d - 1)
      some ((rest.drop k).take (d - k))

/-- One anchored attempt of `\(\d{4}\)\.\s*([^.]+)\./`. -/
def titleYearAttempt (l : List Char) : Option (List Char) :=
  match l with
  | '(' :: d1 :: d2 :: d3 :: d4 :: ')' :: '.' :: rest =>
    if isDigitCh d1 && isDigitCh d2 && isDigitCh d3 && isDigitCh d4 then
      titleTailCapture rest
    else none
  | _ => none

/-- Leftmost occurrence search for an anchored attempt, the unanchored
regex search. -/
def scanFirst (attempt : List Char → Option (List Char)) :
    List Char → Option (List Char)
  | [] => attempt []
  | c :: cs =>
    match attempt (c :: cs) with
    | some r => some r
    | none => scanFirst attempt cs

/-- The fallback title regex `/^[^.]+\.\s*([^.]+)\./`: greedy dot-free
non-empty prefix up to the first dot, the dot, then the captured tail. -/
def titleFallbackMatch (l : List Char) : Option (List Char) :=
  match firstDotPos l with
  | none => none
  | some d =>
    if d = 0 then none
    else titleTailCapture (l.drop (d + 1))

/-- One anchored attempt of the journal regex `/\*([^*]+)\*/`. -/
def journalAttempt (l : List Char) : Option (List Char) :=
  match l with
  | '*' :: rest =>
    let run := rest.takeWhile (fun c => c != '*')
    if run.isEmpty then none
    else
      match rest.drop run.length with
      | '*' :: _ => some run
      | _ => none
  | _ => none

/-- Strip an optional `https://` or `http://` (the greedy `s?` tries the
long scheme first); returns the rest and the number of characters
consumed. -/
def stripOptHttp (l : List Char) : List Char × Nat :=
  match stripCi "https://".data l with
  | some r => (r, 8)
  | none =>
    match stripCi "http://".data l with
    | some r => (r, 7)
    | none => (l, 0)

/-- One anchored attempt of
`/(?:https?:\/\/)?(?:dx\.)?doi\.org\/(10\.\S+)/i`, returning capture
group 1 (`10.` plus the following non-whitespace run). -/
def doiAttempt (l : List Char) : Option (List Char) :=
  let l1 := (stripOptHttp l).1
  let l2 :=
    match stripCi "dx.".data l1 with
    | some r => r
    | none => l1
  match stripCi "doi.org/10.".data l2 with
  | none => none
  | some r =>
    let run := r.takeWhile (fun c => !jsWs c)
    if run.isEmpty then none else some ("10.".data ++ run)

/-- One anchored attempt of
`/(https?:\/\/(?:dx\.)?doi\.org\/10\.\S+)/i`, returning the whole matched
URL in its original characters. -/
def httpDoiAttempt (l : List Char) : Option (List Char) :=
  match stripOptHttp l with
  | (_, 0) => none
  | (r1, n) =>
    let dx : Nat :=
      match stripCi "dx.".data r1 with
      | some _ => 3
      | none => 0
    match stripCi "doi.org/10.".data (r1.drop dx) with
    | none => none
    | some r3 =>
      let run := r3.takeWhile (fun c => !jsWs c)
      if run.isEmpty then none
      else some (l.take (n + dx + 11 + run.length))

/-- One anchored attempt of
`/(?:https?:\/\/)?(?:www\.)?pubmed\.ncbi\.nlm\.nih\.gov\/(\d+)/i`,
returning the captured digit run. -/
def pubmedAttempt (l : List Char) : Option (List Char) :=
  let l1 := (stripOptHttp l).1
  let l2 :=
    match stripCi "www.".data l1 with
    | some r => r
    | none => l1
  match stripCi "pubmed.ncbi.nlm.nih.gov/".data l2 with
  | none => none
  | some r =>
    let run := r.takeWhile isDigitCh
    if run.isEmpty then none else some run

/-- One anchored attempt of
`/(https?:\/\/(?:www\.)?pubmed\.ncbi\.nlm\.nih\.gov\/\d+)/i`, returning
the whole matched URL. -/
def httpPubmedAttempt (l : List Char) : Option (List Char) :=
  match stripOptHttp l with
  | (_, 0) => none
  | (r1, n) =>
    let ww : Nat :=
      match stripCi "www.".data r1 with
      | some _ => 4
      | none => 0
    match stripCi "pubmed.ncbi.nlm.nih.gov/".data (r1.drop ww) with
    | none => none
    | some r =>
      let run := r.takeWhile isDigitCh
      if run.isEmpty then none
      else some (l.take (n + ww + 24 + run.length))

/-- The arXiv identifier `[0-9]+\.[0-9]+` at the head of the text. -/
def arxivIdAt (r : List Char) : Option (List Char) :=
  let d1 := r.takeWhile isDigitCh
  if d1.isEmpty then none
  else
    match r.drop d1.length with
    | '.' :: rest2 =>
      let d2 := rest2.takeWhile isDigitCh
      if d2.isEmpty then none else some (d1 ++ '.' :: d2)
    | _ => none

/-- One anchored attempt of
`/(?:https?:\/\/)?arxiv\.org\/abs\/([0-9]+\.[0-9]+)/i`, returning the
captured identifier. -/
def arxivAttempt (l : List Char) : Option (List Char) :=
  let l1 := (stripOptHttp l).1
  match stripCi "arxiv.org/abs/".data l1 with
  | none => none
  | some r => arxivIdAt r

/-- One anchored attempt of `/(https?:\/\/arxiv\.org\/abs\/[0-9]+\.[0-9]+)/i`,
returning the whole matched URL. -/
def httpArxivAttempt (l : List Char) : Option (List Char) :=
  match stripOptHttp l with
  | (_, 0) => none
  | (r1, n) =>
    match stripCi "arxiv.org/abs/".data r1 with
    | none => none
    | some r =>
      match arxivIdAt r with
      | none => none
      | some a => some (l.take (n + 14 + a.length))

/-- One anchored attempt of the general URL regex
`/(https?:\/\/[^\s\)]+)/i`. -/
def urlAttempt (l : List Char) : Option (List Char) :=
  match stripOptHttp l with
  | (_, 0) => none
  | (r1, n) =>
    let run := r1.takeWhile (fun c => !jsWs c && c != ')')
    if run.isEmpty then none else some (l.take (n + run.length))

/-- The body of `refItems.forEach` in `parseReferences` (part_004 lines
26–107): trim the entry, discard entries shorter than 20 characters,
extract authors/year (defaulting the year to `new Date().getFullYear()`,
here the explicit `currentYear`), title (year-anchored regex, fallback
regex, else the first 100 characters), journal, then the DOI / PubMed /
arXiv / URL cascade.  `index` is the entry's position in the filtered
array. -/
def parseRefEntry (currentYear : Nat) (index : Nat)
    (refText : List Char) : Option Reference :=
  let trimmedRef := jsTrim refText
  if trimmedRef.isEmpty || trimmedRef.length < 20 then none
  else
    let ay := authorYearMatch trimmedRef
    let authors : List (List Char) :=
      match ay with
      | some (astr, _) => splitAuthors astr
      | none => []
    let year : Nat :=
      match ay with
      | some (_, ds) => digitsToNat ds
      | none => currentYear
    let title : List Char :=
      match scanFirst titleYearAttempt trimmedRef with
      | some t => jsTrim t
      | none =>
        match titleFallbackMatch trimmedRef with
        | some t => jsTrim t
        | none => trimmedRef.take 100
    let journal : List Char :=
      match scanFirst journalAttempt trimmedRef with
      | some j => j
      | none => []
    let doiM := scanFirst doiAttempt trimmedRef
    let httpDoiM := scanFirst httpDoiAttempt trimmedRef
    let pubmedM := scanFirst pubmedAttempt trimmedRef
    let httpPubmedM := scanFirst httpPubmedAttempt trimmedRef
    let arxivM := scanFirst arxivAttempt trimmedRef
    let httpArxivM := scanFirst httpArxivAttempt trimmedRef
    let urlM := scanFirst urlAttempt trimmedRef
    let quad : List Char × List Char × List Char × List Char :=
      match httpDoiM with
      | some u => (u, doiM.getD [], [], [])
      | none =>
        match doiM with
        | some d => ("https://doi.org/".data ++ d, d, [], [])
        | none =>
          match httpPubmedM with
          | some u => (u, [], pubmedM.getD [], [])
          | none =>
            match pubmedM with
            | some p =>
              ("https://pubmed.ncbi.nlm.nih.gov/".data ++ p, [], p, [])
            | none =>
              match httpArxivM with
              | some u => (u, [], [], arxivM.getD [])
              | none =>
                match arxivM with
                | some a => ("https://arxiv.org/abs/".data ++ a, [], [], a)
                | none =>
                  match urlM with
                  | some u => (u, [], [], [])
                  | none => ([], [], [], [])
    some
      { id := "ref-" ++ toString (index + 1)
        title := ⟨jsTrim title⟩
        authors := authors.map (fun a => (⟨a⟩ : String))
        journal := ⟨journal⟩
        year := year
        doi := ⟨quad.2.1⟩
        url := ⟨quad.1⟩
        pmid := ⟨quad.2.2.1⟩
        arxivId := ⟨quad.2.2.2⟩ }

/-- `parseReferences` (part_004 lines 14–111): locate the references
section, split it on blank lines, drop items that trim to nothing or
start with `---` or `Please ensure`, and run the per-entry extraction on
each remaining item with its index.  `currentYear` makes the impure
`new Date().getFullYear()` read explicit. -/
def parseReferences (currentYear : Nat) (content : String) :
    List Reference :=
  match findRefSection content.data with
  | none => []
  | some referencesText =>
    let refItems := (splitBlank referencesText).filter fun item =>
      let t := jsTrim item
      !t.isEmpty && !startsWithLit "---".data t &&
        !startsWithLit "Please ensure".data t
    (refItems.enum).filterMap fun p => parseRefEntry currentYear p.1 p.2

/-- A reference with its year replaced by a fixed value, to compare
extractions across invocation times. -/
def eraseYear (r : Reference) : Reference := { r with year := 0 }

/-- Markdown whose references section holds one entry without an
author-year pattern, for the C7 counterexample. -/
def refCexContent : String :=
  "## References\n\nUnderstanding deep learning requires rethinking generalization today"

/-- A JSON parser that accepts nothing, for concrete counterexamples. -/
def parseNothingAsk : String → Option AskAnswer := fun _ => none

/-- A generation-response parser that accepts nothing, for concrete
counterexamples. -/
def parseNothingGen : String → Option ReviewGenerationResponse := fun _ => none

/-- A podcast-list parser that accepts nothing, for concrete counterexamples. -/
def parseNothingPodcasts : String → Option PodcastList := fun _ => none

end PaperMind

namespace PaperMind

/-- C8, counterexample.  The claim says every request-client failure is
surfaced as a `RequestFailed` error whose payload carries the endpoint, the
HTTP status and a snippet of the response body.  In the code the error for a
non-2xx response is a constant-message `Error`: two responses with different
statuses and different bodies produce literally the same error value, so the
surfaced error carries neither the status nor any body snippet, and its
message is the context-free string `Failed to get answer`. -/
theorem claim_C8_counterexample :
    askQuestion parseNothingAsk (.response 500 "internal server explosion")
      = askQuestion parseNothingAsk (.response 404 "review not found") ∧
    askQuestion parseNothingAsk (.response 500 "internal server explosion")
      = .error (.thrown "Failed to get answer") := by
  constructor <;> rfl

/-- C8, amended.  A non-2xx HTTP status is surfaced as a thrown `Error`
with a fixed, operation-specific, context-free message (`Failed to get
answer` for `askQuestion`, `Failed to generate review` for
`generateReview`), carrying neither endpoint, status, nor body; a network
failure propagates as the native fetch rejection and a malformed JSON body
on a 2xx response propagates as the native parse rejection, neither wrapped
in any `RequestFailed`-style context. -/
theorem claim_C8_amended (parseA : String → Option AskAnswer)
    (parseG : String → Option ReviewGenerationResponse)
    (status : Nat) (body : String) (hs : responseOk status = false)
    (hb : parseA body = none) (hg : parseG body = none) :
    askQuestion parseA (.response status body)
        = .error (.thrown "Failed to get answer") ∧
    generateReview parseG (.response status body)
        = .error (.thrown "Failed to generate review") ∧
    askQuestion parseA .netError = .error .networkFailure ∧
    generateReview parseG .netError = .error .networkFailure ∧
    (∀ s, responseOk s = true →
      askQuestion parseA (.response s body) = .error .jsonSyntaxError) ∧
    (∀ s, responseOk s = true →
      generateReview parseG (.response s body) = .error .jsonSyntaxError) := by
  refine ⟨?_, ?_, rfl, rfl, ?_, ?_⟩
  · simp [askQuestion, hs]
  · simp [generateReview, hs]
  · intro s hok; simp [askQuestion, hok, hb]
  · intro s hok; simp [generateReview, hok, hg]

/-- C8, witness for the amended theorem at status 500, body `oops`. -/
theorem claim_C8_amended_witness :
    askQuestion parseNothingAsk (.response 500 "oops")
        = .error (.thrown "Failed to get answer") ∧
    generateReview parseNothingGen (.response 500 "oops")
        = .error (.thrown "Failed to generate review") ∧
    askQuestion parseNothingAsk .netError = .error .networkFailure ∧
    generateReview parseNothingGen .netError = .error .networkFailure ∧
    (∀ s, responseOk s = true →
      askQuestion parseNothingAsk (.response s "oops")
        = .error .jsonSyntaxError) ∧
    (∀ s, responseOk s = true →
      generateReview parseNothingGen (.response s "oops")
        = .error .jsonSyntaxError) :=
  claim_C8_amended parseNothingAsk parseNothingGen 500 "oops"
    (by decide) rfl rfl

/-- C10, counterexample.  The claim says `api.getGeneratedPodcasts` never
raises: in particular that a JSON parse failure also yields
`{ podcasts: [] }`.  But on a 2xx response the code returns the
`response.json()` promise from inside the `try` without awaiting it, so its
rejection is adopted after the `try`/`catch` has been exited and escapes to
the caller: with a malformed 200-response body the call errors instead of
returning the empty list. -/
theorem claim_C10_counterexample :
    getGeneratedPodcasts parseNothingPodcasts (.response 200 "<html>not json</html>")
      = .error .jsonSyntaxError ∧
    getGeneratedPodcasts parseNothingPodcasts (.response 200 "<html>not json</html>")
      ≠ .ok { podcasts := [] } := by
  constructor
  · rfl
  · intro h
    rw [show getGeneratedPodcasts parseNothingPodcasts
          (.response 200 "<html>not json</html>") = .error .jsonSyntaxError
        from rfl] at h
    exact Except.noConfusion h

/-- C10, amended.  `api.getGeneratedPodcasts` returns `{ podcasts: [] }`
instead of throwing for a network failure, for a 404 response, and for any
other non-2xx response; but a 2xx response whose body fails JSON parsing
escapes as the native parse rejection (the promise returned by
`response.json()` is not awaited inside the `try`, so the surrounding
`catch` never sees its rejection), so that one outcome does raise. -/
theorem claim_C10_amended (parse : String → Option PodcastList)
    (status : Nat) (body : String) :
    getGeneratedPodcasts parse .netError = .ok { podcasts := [] } ∧
    (responseOk status = false →
      getGeneratedPodcasts parse (.response status body)
        = .ok { podcasts := [] }) ∧
    (responseOk status = true → parse body = none →
      getGeneratedPodcasts parse (.response status body)
        = .error .jsonSyntaxError) ∧
    (∀ v, responseOk status = true → parse body = some v →
      getGeneratedPodcasts parse (.response status body) = .ok v) := by
  refine ⟨rfl, ?_, ?_, ?_⟩
  · intro hs
    simp only [getGeneratedPodcasts, hs, Bool.false_eq_true, if_false]
    split <;> rfl
  · intro hs hp; simp [getGeneratedPodcasts, hs, hp]
  · intro v hs hp; simp [getGeneratedPodcasts, hs, hp]

/-- C10, witness for the amended theorem at status 503 and a body the
parser rejects. -/
theorem claim_C10_amended_witness :
    getGeneratedPodcasts parseNothingPodcasts .netError
        = .ok { podcasts := [] } ∧
    (responseOk 503 = false →
      getGeneratedPodcasts parseNothingPodcasts (.response 503 "gateway down")
        = .ok { podcasts := [] }) ∧
    (responseOk 503 = true → parseNothingPodcasts "gateway down" = none →
      getGeneratedPodcasts parseNothingPodcasts (.response 503 "gateway down")
        = .error .jsonSyntaxError) ∧
    (∀ v, responseOk 503 = true →
      parseNothingPodcasts "gateway down" = some v →
      getGeneratedPodcasts parseNothingPodcasts (.response 503 "gateway down")
        = .ok v) :=
  claim_C10_amended parseNothingPodcasts 503 "gateway down"

/-- C6.  In `checkBackendConnectivity`, every probe rejection is recorded
as `false` for its service (and, the aggregator being a total function of
the three probe outcomes, no failure propagates past it), and the overall
`isHealthy` equals the disjunction of the three per-service booleans: it is
`false` when all three probes fail and `true` as soon as at least one
service is recorded healthy. -/
theorem claim_C6_health_aggregation (o : ProbeOutcomes) :
    (checkBackendConnectivity o).isHealthy
      = ((checkBackendConnectivity o).services.main
          || (checkBackendConnectivity o).services.cag
          || (checkBackendConnectivity o).services.insights) ∧
    (o.main = .error () → (checkBackendConnectivity o).services.main = false) ∧
    (o.cag = .error () → (checkBackendConnectivity o).services.cag = false) ∧
    (o.insights = .error () →
      (checkBackendConnectivity o).services.insights = false) ∧
    (o.main = .error () → o.cag = .error () → o.insights = .error () →
      (checkBackendConnectivity o).isHealthy = false) ∧
    ((checkBackendConnectivity o).services.main = true ∨
      (checkBackendConnectivity o).services.cag = true ∨
      (checkBackendConnectivity o).services.insights = true →
      (checkBackendConnectivity o).isHealthy = true) := by
  refine ⟨rfl, ?_, ?_, ?_, ?_, ?_⟩
  · intro h; simp [checkBackendConnectivity, h]
  · intro h; simp [checkBackendConnectivity, h]
  · intro h; simp [checkBackendConnectivity, h]
  · intro h1 h2 h3; simp [checkBackendConnectivity, h1, h2, h3]
  · intro h
    rcases h with h | h | h <;>
      simp only [checkBackendConnectivity] at h ⊢ <;>
      simp [h]

/-- C6, witness: all three probes fail, and a run where one succeeds. -/
theorem claim_C6_health_aggregation_witness :
    (checkBackendConnectivity
        ⟨.error (), .error (), .error ()⟩).isHealthy = false ∧
    (checkBackendConnectivity
        ⟨.error (), .ok ⟨"healthy"⟩, .error ()⟩).isHealthy = true := by
  constructor
  · exact (claim_C6_health_aggregation
      ⟨.error (), .error (), .error ()⟩).2.2.2.2.1 rfl rfl rfl
  · exact (claim_C6_health_aggregation
      ⟨.error (), .ok ⟨"healthy"⟩, .error ()⟩).2.2.2.2.2 (Or.inr (Or.inl rfl))

/-- Folding the `onmessage` handler never closes the stream and delivers
exactly the parse successes, appended in order. -/
theorem streamFold_spec (parse : String → Option α) (events : List String)
    (st : StreamState α) :
    (events.foldl (onmessageStep parse) st).closed = st.closed ∧
    (events.foldl (onmessageStep parse) st).delivered
      = st.delivered ++ events.filterMap parse := by
  induction events generalizing st with
  | nil => simp
  | cons e es ih =>
    simp only [List.foldl_cons, List.filterMap_cons]
    cases h : parse e with
    | none =>
      simpa [onmessageStep, h] using ih st
    | some v =>
      rcases ih { st with delivered := st.delivered ++ [v] } with ⟨hc, hd⟩
      refine ⟨by simpa [onmessageStep, h] using hc, ?_⟩
      rw [show onmessageStep parse st e
            = { st with delivered := st.delivered ++ [v] } by
          simp [onmessageStep, h]]
      rw [hd]
      simp

/-- C9.  The stream handler of `api.createResearchStream` parses each
event's data independently: it never closes the stream, it delivers exactly
the events whose JSON parses (in order), and dropping a single unparsable
event from the middle of a stream leaves the delivered sequence and stream
state unchanged — subsequent events are still parsed and delivered. -/
theorem claim_C9_stream_parse_isolated (parse : String → Option α)
    (events : List String) :
    (createResearchStreamRun parse events).closed = false ∧
    (createResearchStreamRun parse events).delivered
      = events.filterMap parse ∧
    (∀ pre bad post, parse bad = none →
      createResearchStreamRun parse (pre ++ bad :: post)
        = createResearchStreamRun parse (pre ++ post)) := by
  refine ⟨(streamFold_spec parse events _).1,
    by simpa using (streamFold_spec parse events _).2, ?_⟩
  intro pre bad post hbad
  have h1 := streamFold_spec parse (pre ++ bad :: post)
    (⟨[], false⟩ : StreamState α)
  have h2 := streamFold_spec parse (pre ++ post)
    (⟨[], false⟩ : StreamState α)
  have : (pre ++ bad :: post).filterMap parse
      = (pre ++ post).filterMap parse := by
    simp [List.filterMap_append, List.filterMap_cons, hbad]
  cases hr1 : createResearchStreamRun parse (pre ++ bad :: post)
  cases hr2 : createResearchStreamRun parse (pre ++ post)
  simp only [createResearchStreamRun] at h1 h2 hr1 hr2
  rw [hr1] at h1
  rw [hr2] at h2
  simp_all

/-- C9, witness: a malformed middle event is skipped while the surrounding
events are delivered and the stream stays open. -/
theorem claim_C9_stream_parse_isolated_witness :
    (createResearchStreamRun
        (fun s => if s = "bad" then none else some s)
        ["a", "bad", "b"]).closed = false ∧
    (createResearchStreamRun
        (fun s => if s = "bad" then none else some s)
        ["a", "bad", "b"]).delivered = ["a", "b"] ∧
    createResearchStreamRun
        (fun s => if s = "bad" then none else some s)
        (["a"] ++ "bad" :: ["b"])
      = createResearchStreamRun
          (fun s => if s = "bad" then none else some s) (["a"] ++ ["b"]) := by
  refine ⟨(claim_C9_stream_parse_isolated _ ["a", "bad", "b"]).1, ?_, ?_⟩
  · rw [(claim_C9_stream_parse_isolated
      (fun s => if s = "bad" then none else some s) ["a", "bad", "b"]).2.1]
    rfl
  · exact (claim_C9_stream_parse_isolated
      (fun s => if s = "bad" then none else some s) []).2.2
      ["a"] "bad" ["b"] (by simp)

/-- The `catch` block of `fetchGeneratedReview` never touches the
displayed markdown, whatever value its closure captured. -/
theorem fetchCatch_rawMarkdown (captured : String) (st : PageState) :
    (fetchGeneratedReviewCatch captured st).1.rawMarkdown
      = st.rawMarkdown := by
  unfold fetchGeneratedReviewCatch
  split <;> rfl

/-- `fetchGeneratedReview` always requests exactly the ids described by
`requestedReviewIds`, whatever the responses contain. -/
theorem fetch_requested (backend : ReviewBackend) (rid : String)
    (st : PageState) :
    (fetchGeneratedReview backend rid st).requested
      = requestedReviewIds backend rid st.topic := by
  cases hres : resolveReviewFetch backend rid st.topic with
  | none => simp [fetchGeneratedReview, fetchGeneratedReviewWith, hres]
  | some r =>
    by_cases h : r.content = "" <;>
      simp [fetchGeneratedReview, fetchGeneratedReviewWith, hres, h]

/-- C1, counterexample.  The claim says `fetchGeneratedReview` replaces
the displayed content only when the fetched content is strictly longer,
retaining it otherwise.  But the code replaces on ANY non-empty fetched
content: with ten characters displayed, a successful fetch returning the
single character `x` — strictly shorter — still overwrites the display. -/
theorem claim_C1_counterexample :
    (fetchGeneratedReview backendShort "rev1" stTenChars).state.rawMarkdown
      = "x" ∧
    ¬ (("x" : String).length > stTenChars.rawMarkdown.length) ∧
    (fetchGeneratedReview backendShort "rev1" stTenChars).state.rawMarkdown
      ≠ stTenChars.rawMarkdown := by
  refine ⟨rfl, by decide, ?_⟩
  intro h
  rw [show (fetchGeneratedReview backendShort "rev1"
      stTenChars).state.rawMarkdown = "x" from rfl] at h
  exact absurd h (by decide)

/-- C1, amended.  In `fetchGeneratedReview` a successful follow-up
response with non-empty content always replaces the displayed content,
regardless of relative lengths; the displayed content is retained exactly
when the fetch fails or its content is empty.  The strictly-longer-only
replacement the claim describes holds instead in the page variant's `Load
Full Content` button handler: there the fetched content replaces the
display precisely when it is non-empty and strictly longer, and the
display is retained unchanged otherwise (including on a failed fetch). -/
theorem claim_C1_amended (backend : ReviewBackend) (rid : String)
    (st : PageState) :
    (∀ r, resolveReviewFetch backend rid st.topic = some r →
      r.content ≠ "" →
      (fetchGeneratedReview backend rid st).state.rawMarkdown = r.content) ∧
    (resolveReviewFetch backend rid st.topic = none →
      (fetchGeneratedReview backend rid st).state.rawMarkdown
        = st.rawMarkdown) ∧
    (∀ r, resolveReviewFetch backend rid st.topic = some r →
      r.content = "" →
      (fetchGeneratedReview backend rid st).state.rawMarkdown
        = st.rawMarkdown) ∧
    (∀ r, backend (topicBasedId st.topic) = some r →
      ((r.content ≠ "" ∧ r.content.length > st.rawMarkdown.length) →
        (loadFullContentHandler backend st).rawMarkdown = r.content) ∧
      (¬ (r.content ≠ "" ∧ r.content.length > st.rawMarkdown.length) →
        (loadFullContentHandler backend st).rawMarkdown = st.rawMarkdown)) ∧
    (backend (topicBasedId st.topic) = none →
      (loadFullContentHandler backend st).rawMarkdown = st.rawMarkdown) := by
  refine ⟨?_, ?_, ?_, ?_, ?_⟩
  · intro r h hne
    simp [fetchGeneratedReview, fetchGeneratedReviewWith, setProgress, h,
      hne]
  · intro h
    simp only [fetchGeneratedReview, fetchGeneratedReviewWith, h]
    exact fetchCatch_rawMarkdown _ _
  · intro r h he
    simp only [fetchGeneratedReview, fetchGeneratedReviewWith, h, he,
      ne_eq, not_true_eq_false, if_false]
    exact fetchCatch_rawMarkdown _ _
  · intro r h
    constructor
    · intro hc
      simp [loadFullContentHandler, h, hc.1, hc.2]
    · intro hc
      simp only [loadFullContentHandler, h]
      rw [if_neg hc]
  · intro h
    simp [loadFullContentHandler, h]

/-- C1, witness for the amended theorem: a shorter non-empty fetch result
replaces the display in `fetchGeneratedReview`; a failed fetch retains it;
the `Load Full Content` handler retains the display for the same
shorter-content backend. -/
theorem claim_C1_amended_witness :
    (fetchGeneratedReview backendShort "rev1" stTenChars).state.rawMarkdown
      = "x" ∧
    (fetchGeneratedReview backendAllFail "rev1"
        stTenChars).state.rawMarkdown = "0123456789" ∧
    (loadFullContentHandler backendShort stTenChars).rawMarkdown
      = "0123456789" := by
  refine ⟨?_, ?_, ?_⟩
  · exact (claim_C1_amended backendShort "rev1" stTenChars).1
      ⟨"x", none⟩ rfl (by decide)
  · exact (claim_C1_amended backendAllFail "rev1" stTenChars).2.1 rfl
  · exact ((claim_C1_amended backendShort "rev1" stTenChars).2.2.2.1
      ⟨"x", none⟩ rfl).2 (by decide)

/-- C2, counterexample.  The claim says that after both the primary and
fallback fetches fail over a displayed preview, the run ends Complete
showing the preview (not an error), flagged as unverified, with a visible
`Load Full Content` retry control.  Running the handler on a
600-character preview with every fetch failing: the preview stays
displayed, but the fetch closure's catch reads the render-captured EMPTY
`rawMarkdown` — not the preview just written — so it takes the error
branch, shows the destructive `Error fetching review` toast and re-throws
without building a review object; `onSuccess`'s own catch then SETS the
full-content flag.  So the flag reports verified full content (not
unverified) and the retry control — whose guard requires a review object
and a false flag — is not rendered. -/
theorem claim_C2_counterexample :
    (onSuccessGenerate backendAllFail dataPreview600
        stScenario).1.rawMarkdown = preview600 ∧
    (onSuccessGenerate backendAllFail dataPreview600
        stScenario).1.isFullContentLoaded = true ∧
    loadFullContentVisible
        (onSuccessGenerate backendAllFail dataPreview600 stScenario).1
      = false ∧
    (onSuccessGenerate backendAllFail dataPreview600 stScenario).1.toasts
      = stScenario.toasts ++ [⟨"Error fetching review", true⟩] ∧
    (onSuccessGenerate backendAllFail dataPreview600
        stScenario).1.reviewAbstract = none := by
  refine ⟨rfl, rfl, rfl, rfl, rfl⟩

/-- C2, amended.  When both the primary-id and fallback-id fetches fail
after `onSuccess` has just displayed a non-empty preview no longer than
the 1000-character promotion threshold (over a fresh run whose
pre-handler display was empty), the run still terminates with the preview
displayed and generation stopped — the user is not stranded on a loading
preview — but neither silently nor flagged unverified: the fetch
closure's catch reads the render-captured empty `rawMarkdown`, skips the
preview-preservation branch, shows the destructive `Error fetching
review` toast and re-throws; the handler's own catch then sets
`isFullContentLoaded` to true and progress to 100 without building a
review object.  The terminal state is flagged as loaded FULL content —
indistinguishable from a verified completion — and the `Load Full
Content` retry control, whose visibility requires a review object and a
false flag, is not shown. -/
theorem claim_C2_amended (backend : ReviewBackend)
    (data : ReviewGenerationResponse) (st0 : PageState) (p : String)
    (hst : data.status = "completed") (hp : data.preview = some p)
    (hlen0 : 0 < p.length) (hlen2 : p.length ≤ 1000)
    (hcap : st0.rawMarkdown = "")
    (hb1 : backend data.review_id = none)
    (hb2 : backend (topicBasedId st0.topic) = none) :
    (onSuccessGenerate backend data st0).1.rawMarkdown = p ∧
    (onSuccessGenerate backend data st0).1.isGenerating = false ∧
    (onSuccessGenerate backend data st0).1.isFullContentLoaded = true ∧
    (onSuccessGenerate backend data st0).1.reviewAbstract
      = st0.reviewAbstract ∧
    (onSuccessGenerate backend data st0).1.toasts
      = st0.toasts ++ [⟨"Error fetching review", true⟩] ∧
    (onSuccessGenerate backend data st0).1.generationProgress = 100 ∧
    loadFullContentVisible (onSuccessGenerate backend data st0).1
      = false := by
  have hpne : p ≠ "" := by
    intro h
    rw [h] at hlen0
    exact absurd hlen0 (by decide)
  have hgt : ¬ (p.length > 1000) := by omega
  simp only [onSuccessGenerate, fetchGeneratedReviewWith,
    fetchGeneratedReviewCatch, resolveReviewFetch, requestedReviewIds,
    setProgress, hp, hst, hb1, hb2, hcap]
  simp [hpne, hgt, loadFullContentVisible]

/-- C2, witness for the amended theorem at the concrete 600-character
scenario. -/
theorem claim_C2_amended_witness :
    (onSuccessGenerate backendAllFail dataPreview600
        stScenario).1.rawMarkdown = preview600 ∧
    (onSuccessGenerate backendAllFail dataPreview600
        stScenario).1.isGenerating = false ∧
    (onSuccessGenerate backendAllFail dataPreview600
        stScenario).1.isFullContentLoaded = true ∧
    (onSuccessGenerate backendAllFail dataPreview600
        stScenario).1.reviewAbstract = stScenario.reviewAbstract ∧
    (onSuccessGenerate backendAllFail dataPreview600 stScenario).1.toasts
      = stScenario.toasts ++ [⟨"Error fetching review", true⟩] ∧
    (onSuccessGenerate backendAllFail dataPreview600
        stScenario).1.generationProgress = 100 ∧
    loadFullContentVisible
        (onSuccessGenerate backendAllFail dataPreview600 stScenario).1
      = false :=
  claim_C2_amended backendAllFail dataPreview600 stScenario preview600
    rfl rfl (by decide) (by decide) rfl rfl rfl

/-- C4.  When the primary-id lookup of `fetchGeneratedReview` fails,
exactly one fallback fetch follows, using the id derived from the topic by
prefixing `review_` to the lowercased topic with every whitespace run
replaced by `_`; on the spec's example topic that id is
`review_machine_learning_in_healthcare`; and a successful fallback
response with non-empty content becomes the final displayed content,
flagged as full content, with no error re-thrown. -/
theorem claim_C4_fallback_id (backend : ReviewBackend) (rid : String)
    (st : PageState) (hfail : backend rid = none) :
    (fetchGeneratedReview backend rid st).requested
      = [rid, topicBasedId st.topic] ∧
    topicBasedId "Machine Learning in Healthcare"
      = "review_machine_learning_in_healthcare" ∧
    (∀ r, backend (topicBasedId st.topic) = some r → r.content ≠ "" →
      (fetchGeneratedReview backend rid st).state.rawMarkdown = r.content ∧
      (fetchGeneratedReview backend rid st).state.isFullContentLoaded
        = true ∧
      (fetchGeneratedReview backend rid st).threw = false) := by
  refine ⟨?_, by decide, ?_⟩
  · rw [fetch_requested]
    simp [requestedReviewIds, hfail]
  · intro r h hne
    have hres : resolveReviewFetch backend rid st.topic = some r := by
      simp [resolveReviewFetch, hfail, h]
    refine ⟨?_, ?_, ?_⟩ <;>
      simp [fetchGeneratedReview, fetchGeneratedReviewWith, setProgress,
        hres, hne]

/-- C4, witness at the scenario topic: one fallback request with the
derived id, whose content becomes the displayed content. -/
theorem claim_C4_fallback_id_witness :
    (fetchGeneratedReview backendFallbackOnly "rev1"
        (initialPageState "Machine Learning in Healthcare")).requested
      = ["rev1", topicBasedId "Machine Learning in Healthcare"] ∧
    (fetchGeneratedReview backendFallbackOnly "rev1"
        (initialPageState "Machine Learning in Healthcare")).state.rawMarkdown
      = "the complete systematic review text, longer than the preview" := by
  constructor
  · exact (claim_C4_fallback_id backendFallbackOnly "rev1"
      (initialPageState "Machine Learning in Healthcare") (by decide)).1
  · exact ((claim_C4_fallback_id backendFallbackOnly "rev1"
      (initialPageState "Machine Learning in Healthcare") (by decide)).2.2
      ⟨"the complete systematic review text, longer than the preview",
        some 800⟩ (by decide) (by decide)).1

/-- One interval firing over an all-failing backend with no displayed
content: the fetch re-throws, so the interval survives, the progress
history gains the increment capped at 90, the fetch-start 80 and the
reset 0, and nothing else of interest changes. -/
theorem pollTick_fail (backend : ReviewBackend) (rid : String)
    (s : PollSystem) (hfail : ∀ id, backend id = none)
    (hraw : s.page.rawMarkdown = "") (hact : s.intervalActive = true) :
    (pollTick backend rid s).intervalActive = true ∧
    (pollTick backend rid s).page.rawMarkdown = "" ∧
    (pollTick backend rid s).page.generationProgress = 0 ∧
    (pollTick backend rid s).page.reviewAbstract = s.page.reviewAbstract ∧
    (pollTick backend rid s).page.progressUpdates
      = s.page.progressUpdates
        ++ [min (s.page.generationProgress + 10) 90, 80, 0] ∧
    (pollTick backend rid s).pollsFired = s.pollsFired + 1 := by
  have h500 : ¬ (("" : String) ≠ "" ∧ ("" : String).length > 500) := by
    simp
  simp [pollTick, hact, fetchGeneratedReview, fetchGeneratedReviewWith,
    resolveReviewFetch, hfail, fetchGeneratedReviewCatch, setProgress,
    hraw]

/-- Invariant of an all-failing polling run: the interval stays installed
(every fetch failure is swallowed and polling continues), nothing is
displayed, progress stays below 100 and no review object appears. -/
theorem runPolls_fail_invariant (backend : ReviewBackend) (rid : String)
    (n : Nat) (s : PollSystem) (hfail : ∀ id, backend id = none)
    (hraw : s.page.rawMarkdown = "") (hact : s.intervalActive = true)
    (hprog : s.page.generationProgress < 100) :
    (runPolls backend rid n s).intervalActive = true ∧
    (runPolls backend rid n s).page.rawMarkdown = "" ∧
    (runPolls backend rid n s).page.generationProgress < 100 ∧
    (runPolls backend rid n s).page.reviewAbstract
      = s.page.reviewAbstract := by
  induction n generalizing s with
  | zero => exact ⟨hact, hraw, hprog, rfl⟩
  | succ n ih =>
    obtain ⟨h1, h2, h3, h4, h5, _⟩ := pollTick_fail backend rid s hfail
      hraw hact
    have := ih (pollTick backend rid s) h2 h1 (by omega)
    exact ⟨this.1, this.2.1, this.2.2.1, this.2.2.2.trans h4⟩

/-- In an all-failing polling run every recorded progress update stays at
or below 90: the per-poll increment is `Math.min(prev + 10, 90)`, the
fetch start writes 80 and the failing fetch resets to 0. -/
theorem runPolls_fail_trace_bound (backend : ReviewBackend) (rid : String)
    (n : Nat) (s : PollSystem) (hfail : ∀ id, backend id = none)
    (hraw : s.page.rawMarkdown = "") (hact : s.intervalActive = true)
    (htrace : ∀ v ∈ s.page.progressUpdates, v ≤ 90) :
    ∀ v ∈ (runPolls backend rid n s).page.progressUpdates, v ≤ 90 := by
  induction n generalizing s with
  | zero => exact htrace
  | succ n ih =>
    obtain ⟨h1, h2, _, _, h5, _⟩ := pollTick_fail backend rid s hfail
      hraw hact
    refine ih (pollTick backend rid s) h2 h1 ?_
    intro v hv
    rw [h5] at hv
    rcases List.mem_append.1 hv with h | h
    · exact htrace v h
    · simp only [List.mem_cons, List.not_mem_nil, or_false] at h
      rcases h with h | h | h
      · exact h ▸ min_le_right _ _
      · omega
      · omega

/-- C3.  In the polling branch, the follow-up fetch is driven by a
`setInterval` with a fixed 3000 ms period (the k-th firing is at
3000·(k+1) ms, successive firings 3000 ms apart) and a 120000 ms timeout;
while every fetch fails, each failure is swallowed and the interval
survives every firing; when the timeout fires with no fetch having
succeeded, the interval is cleared — a subsequent firing is a no-op, so no
further polls occur — and the job ends failed: not generating, progress
reset to 0, no review produced, with the destructive user-facing
`Generation timeout` notice. -/
theorem claim_C3_polling_timeout (backend : ReviewBackend) (rid : String)
    (st0 : PageState) (n : Nat) (hfail : ∀ id, backend id = none)
    (hraw : st0.rawMarkdown = "")
    (hprog : st0.generationProgress < 100) :
    (pollIntervalMs = 3000 ∧ pollTimeoutMs = 120000 ∧
      (∀ k, pollFireTime k = 3000 * (k + 1)) ∧
      (∀ k, pollFireTime (k + 1) = pollFireTime k + pollIntervalMs)) ∧
    (∀ k, (runPolls backend rid k (startPolling st0)).intervalActive
      = true) ∧
    ((pollTimeoutFire
        (runPolls backend rid n (startPolling st0))).intervalActive
      = false ∧
     (pollTimeoutFire
        (runPolls backend rid n (startPolling st0))).page.isGenerating
      = false ∧
     (pollTimeoutFire (runPolls backend rid n
        (startPolling st0))).page.generationProgress = 0 ∧
     (⟨"Generation timeout", true⟩ : Toast) ∈
       (pollTimeoutFire
         (runPolls backend rid n (startPolling st0))).page.toasts ∧
     (pollTimeoutFire (runPolls backend rid n
        (startPolling st0))).page.reviewAbstract = st0.reviewAbstract) ∧
    pollTick backend rid
        (pollTimeoutFire (runPolls backend rid n (startPolling st0)))
      = pollTimeoutFire (runPolls backend rid n (startPolling st0)) := by
  have hbase : ∀ k,
      (runPolls backend rid k (startPolling st0)).intervalActive = true ∧
      (runPolls backend rid k (startPolling st0)).page.rawMarkdown = "" ∧
      (runPolls backend rid k
        (startPolling st0)).page.generationProgress < 100 ∧
      (runPolls backend rid k (startPolling st0)).page.reviewAbstract
        = st0.reviewAbstract :=
    fun k => runPolls_fail_invariant backend rid k (startPolling st0)
      hfail hraw rfl hprog
  obtain ⟨-, hraw2, hprog2, habs2⟩ := hbase n
  have hfire : pollTimeoutFire (runPolls backend rid n (startPolling st0))
      = { intervalActive := false
          pollsFired :=
            (runPolls backend rid n (startPolling st0)).pollsFired
          page := setProgress 0
            { (runPolls backend rid n (startPolling st0)).page with
              toasts :=
                (runPolls backend rid n (startPolling st0)).page.toasts
                  ++ [⟨"Generation timeout", true⟩]
              isGenerating := false } } := by
    simp [pollTimeoutFire, hprog2]
  refine ⟨⟨rfl, rfl, fun k => rfl, fun k => by
      unfold pollFireTime pollIntervalMs; ring⟩,
    fun k => (hbase k).1, ⟨?_, ?_, ?_, ?_, ?_⟩, ?_⟩
  · rw [hfire]
  · rw [hfire]; rfl
  · rw [hfire]; rfl
  · rw [hfire]
    simp [setProgress]
  · rw [hfire]
    simpa [setProgress] using habs2
  · rw [hfire]
    simp [pollTick]

/-- C3, witness: two failing polls, then the timeout. -/
theorem claim_C3_polling_timeout_witness :
    (∀ k, (runPolls backendAllFail "rev1" k
        (startPolling stPollStart)).intervalActive = true) ∧
    (pollTimeoutFire (runPolls backendAllFail "rev1" 2
        (startPolling stPollStart))).intervalActive = false ∧
    (pollTimeoutFire (runPolls backendAllFail "rev1" 2
        (startPolling stPollStart))).page.isGenerating = false ∧
    (⟨"Generation timeout", true⟩ : Toast) ∈
      (pollTimeoutFire (runPolls backendAllFail "rev1" 2
        (startPolling stPollStart))).page.toasts ∧
    pollTick backendAllFail "rev1"
        (pollTimeoutFire (runPolls backendAllFail "rev1" 2
          (startPolling stPollStart)))
      = pollTimeoutFire (runPolls backendAllFail "rev1" 2
          (startPolling stPollStart)) := by
  have h := claim_C3_polling_timeout backendAllFail "rev1" stPollStart 2
    (fun _ => rfl) rfl (by decide)
  exact ⟨h.2.1, h.2.2.1.1, h.2.2.1.2.1, h.2.2.1.2.2.2.1, h.2.2.2⟩

/-- C5, counterexample.  The claim says progress is monotonically
non-decreasing while polling.  One failing poll from the polling start
state records the updates 40 (increment), 80 (fetch start), 0 (reset on
the failed fetch): the adjacent pair 80, 0 decreases, so an update during
polling does set progress lower than its current value. -/
theorem claim_C5_counterexample :
    (runPolls backendAllFail "rev1" 1
        (startPolling stPollStart)).page.progressUpdates = [40, 80, 0] ∧
    ¬ List.Chain' (fun a b => a ≤ b) ([40, 80, 0] : List Nat) := by
  refine ⟨rfl, ?_⟩
  intro h
  rcases h with _ | ⟨h1, h2⟩
  rcases h2 with _ | ⟨h3, _⟩
  exact absurd h3 (by omega)

/-- C5, amended.  While a job is polling with every fetch failing, every
recorded progress update lies in the range 0–100, never reaches 100
before a successful fetch, and in fact never exceeds 90 (the per-poll
increment is `Math.min(prev + 10, 90)`); but the sequence of updates is
NOT monotonically non-decreasing: each poll writes 80 when the follow-up
fetch starts and a failing fetch then resets progress to 0. -/
theorem claim_C5_amended (backend : ReviewBackend) (rid : String)
    (st0 : PageState) (n : Nat) (hfail : ∀ id, backend id = none)
    (hraw : st0.rawMarkdown = "")
    (htrace : ∀ v ∈ st0.progressUpdates, v ≤ 90) :
    ∀ v ∈ (runPolls backend rid n
        (startPolling st0)).page.progressUpdates,
      v ≤ 100 ∧ v ≠ 100 ∧ v ≤ 90 := by
  intro v hv
  have h := runPolls_fail_trace_bound backend rid n (startPolling st0)
    hfail hraw rfl htrace v hv
  exact ⟨by omega, by omega, h⟩

/-- C5, witness for the amended theorem: the reset value 0 recorded by the
second failing poll. -/
theorem claim_C5_amended_witness :
    (0 : Nat) ∈ (runPolls backendAllFail "rev1" 2
        (startPolling stPollStart)).page.progressUpdates ∧
    ((0 : Nat) ≤ 100 ∧ (0 : Nat) ≠ 100 ∧ (0 : Nat) ≤ 90) := by
  refine ⟨by decide, ?_⟩
  exact claim_C5_amended backendAllFail "rev1" stPollStart 2
    (fun _ => rfl) rfl (by intro v hv; cases hv) 0 (by decide)

end PaperMind

namespace PaperMind

/-- One reference entry processed at two different invocation times
differs at most in its `year` field: the time enters only as the default
year of entries without an author-year match. -/
theorem parseRefEntry_eraseYear (y₁ y₂ idx : Nat) (item : List Char) :
    (parseRefEntry y₁ idx item).map eraseYear
      = (parseRefEntry y₂ idx item).map eraseYear := by
  by_cases h : (jsTrim item).isEmpty || (jsTrim item).length < 20 <;>
    simp [parseRefEntry, h, eraseYear]

/-- C7, counterexample.  The claim says `parseReferences` is a pure
function of its input text, producing the same records at any time — in
particular the same years.  But an entry with no author-year pattern is
assigned `new Date().getFullYear()`: on the same input the record's year
is 2024 when parsed in 2024 and 2025 when parsed in 2025, so two
invocations at different times disagree. -/
theorem claim_C7_counterexample :
    parseReferences 2024 refCexContent
      ≠ parseReferences 2025 refCexContent ∧
    (parseReferences 2024 refCexContent).map Reference.year = [2024] ∧
    (parseReferences 2025 refCexContent).map Reference.year = [2025] := by
  refine ⟨?_, rfl, rfl⟩
  intro h
  have h2 := congrArg (List.map Reference.year) h
  rw [show (parseReferences 2024 refCexContent).map Reference.year
        = [2024] from rfl,
      show (parseReferences 2025 refCexContent).map Reference.year
        = [2025] from rfl] at h2
  exact absurd h2 (by decide)

/-- C7, amended.  `parseReferences` is a deterministic function of its
input text and the current calendar year (the one impure read,
`new Date().getFullYear()`, made explicit): for a fixed year two
invocations agree exactly, and across any two invocation times the
extracted records agree on every field — ids, titles, authors, journals,
DOIs, PubMed ids, arXiv ids, URLs — except possibly `year`, which
defaults to the current year for entries lacking an author-year
pattern. -/
theorem claim_C7_amended (y₁ y₂ : Nat) (content : String) :
    (parseReferences y₁ content).map eraseYear
      = (parseReferences y₂ content).map eraseYear := by
  unfold parseReferences
  cases h : findRefSection content.data with
  | none => rfl
  | some sec =>
    simp only [List.map_filterMap]
    congr 1
    funext p
    exact parseRefEntry_eraseYear y₁ y₂ p.1 p.2

end PaperMind
